import Mathlib

/-!
Verification of `legacy_python_bot/checkmate-main/checker.py`.

The Python functions are shallowly embedded as executable Lean
definitions.  Character-level remarks on fidelity:

* Python `str.strip()` removes Unicode whitespace from both ends; the
  embedding models the ASCII whitespace characters (space, tab, LF, VT,
  FF, CR), which cover every input appearing in the development.
* The regex classes `\d` / `\D` in a Python `str` pattern match Unicode
  decimal digits; the embedding models the ASCII digits `0`-`9`
  (`Char.isDigit`), again covering every input used here.
* `str.lower()` / `str.upper()` are modelled on the ASCII letters.
* The JSON settings file is modelled at the level of its parsed JSON
  value (`JVal`): the file stores the value written by `json.dump`, and
  `json.load` returns it; a missing or unparseable file is a separate
  `ConfigFile` state.
-/

/-- ASCII whitespace as stripped by Python `str.strip()`. -/
def pyIsSpace (c : Char) : Bool :=
  c = ' ' ∨ c = '\t' ∨ c = '\n' ∨ c = '\x0b' ∨ c = '\x0c' ∨ c = '\r'

/-- `str.strip()` on a character list: drop whitespace from both ends. -/
def pyStripL (l : List Char) : List Char :=
  ((l.dropWhile pyIsSpace).reverse.dropWhile pyIsSpace).reverse

/-- `str.strip()`. -/
def pyStrip (s : String) : String :=
  String.mk (pyStripL s.toList)

/-- ASCII lower-casing of one character (`str.lower()` pointwise). -/
def lcChar (c : Char) : Char :=
  match c with
  | 'A' => 'a' | 'B' => 'b' | 'C' => 'c' | 'D' => 'd' | 'E' => 'e'
  | 'F' => 'f' | 'G' => 'g' | 'H' => 'h' | 'I' => 'i' | 'J' => 'j'
  | 'K' => 'k' | 'L' => 'l' | 'M' => 'm' | 'N' => 'n' | 'O' => 'o'
  | 'P' => 'p' | 'Q' => 'q' | 'R' => 'r' | 'S' => 's' | 'T' => 't'
  | 'U' => 'u' | 'V' => 'v' | 'W' => 'w' | 'X' => 'x' | 'Y' => 'y'
  | 'Z' => 'z'
  | c => c

/-- ASCII upper-casing of one character (`str.upper()` pointwise). -/
def ucChar (c : Char) : Char :=
  match c with
  | 'a' => 'A' | 'b' => 'B' | 'c' => 'C' | 'd' => 'D' | 'e' => 'E'
  | 'f' => 'F' | 'g' => 'G' | 'h' => 'H' | 'i' => 'I' | 'j' => 'J'
  | 'k' => 'K' | 'l' => 'L' | 'm' => 'M' | 'n' => 'N' | 'o' => 'O'
  | 'p' => 'P' | 'q' => 'Q' | 'r' => 'R' | 's' => 'S' | 't' => 'T'
  | 'u' => 'U' | 'v' => 'V' | 'w' => 'W' | 'x' => 'X' | 'y' => 'Y'
  | 'z' => 'Z'
  | c => c

/-- `str.lower()`. -/
def pyLower (s : String) : String := String.mk (s.toList.map lcChar)

/-- `str.upper()`. -/
def pyUpper (s : String) : String := String.mk (s.toList.map ucChar)

/-- `str.replace(a, b)` for single-character arguments. -/
def pyReplaceChar (s : String) (a b : Char) : String :=
  String.mk (s.toList.map (fun c => if c = a then b else c))

/-- `str.zfill(2)`: left-pad with `'0'` to width 2. -/
def zfill2 (l : List Char) : List Char :=
  List.replicate (2 - l.length) '0' ++ l

/-- `int(s)` for a string of decimal digits. -/
def listToNat (l : List Char) : Nat :=
  l.foldl (fun a c => a * 10 + (c.toNat - 48)) 0

/-- Take exactly `n` digits from the front of `l`
    (one quantifier candidate of a `\d{lo,hi}` group). -/
def takeDigits : Nat → List Char → Option (List Char × List Char)
  | 0, l => some ([], l)
  | _ + 1, [] => none
  | n + 1, c :: rest =>
    if c.isDigit then
      match takeDigits n rest with
      | some (g, r) => some (c :: g, r)
      | none => none
    else none

/-- First candidate (in order) on which `f` succeeds: the backtracking
    order of a greedy bounded quantifier. -/
def firstSome {α β : Type} (f : α → Option β) : List α → Option β
  | [] => none
  | a :: as =>
    match f a with
    | some b => some b
    | none => firstSome f as

/-- One anchored attempt of the pattern
    `(\d{13,19})\D*(\d{1,2})\D*(\d{2,4})\D*(\d{3,4})` at the head of
    `l`, with Python's leftmost-greedy backtracking semantics.  Each
    `\D*` sits between two digit groups, so the only consumption that
    can be followed by a digit is the whole maximal run of non-digits:
    it is modelled by `dropWhile`. -/
def matchAt (l : List Char) :
    Option (List Char × List Char × List Char × List Char) :=
  firstSome (fun n1 =>
    match takeDigits n1 l with
    | none => none
    | some (g1, r1) =>
      let r2 := r1.dropWhile (fun c => !c.isDigit)
      firstSome (fun n2 =>
        match takeDigits n2 r2 with
        | none => none
        | some (g2, r3) =>
          let r4 := r3.dropWhile (fun c => !c.isDigit)
          firstSome (fun n3 =>
            match takeDigits n3 r4 with
            | none => none
            | some (g3, r5) =>
              let r6 := r5.dropWhile (fun c => !c.isDigit)
              firstSome (fun n4 =>
                match takeDigits n4 r6 with
                | none => none
                | some (g4, _) => some (g1, g2, g3, g4)) [4, 3])
            [4, 3, 2])
        [2, 1])
    [19, 18, 17, 16, 15, 14, 13]

/-- `re.search` of the pattern: earliest start position wins. -/
def reSearch : List Char → Option (List Char × List Char × List Char × List Char)
  | [] => none
  | c :: rest =>
    match matchAt (c :: rest) with
    | some g => some g
    | none => reSearch rest

/-- `extractdummy(line)` (checker.py lines 336-354): regex search, month
    zero-fill, 4-digit year truncated to its last two digits, then the
    length / month-range acceptance test, yielding the canonical
    pipe-joined record. -/
def extractdummy (line : String) : Option String :=
  match reSearch line.toList with
  | none => none
  | some (g1, g2, g3, g4) =>
    let cc := g1
    let mm := zfill2 g2
    let yy := if g3.length = 4 then g3.drop 2 else g3
    let cvc := g4
    if 13 ≤ cc.length ∧ cc.length ≤ 19 ∧ 1 ≤ listToNat mm ∧ listToNat mm ≤ 12 then
      some (String.mk (cc ++ '|' :: (mm ++ '|' :: (yy ++ '|' :: cvc))))
    else none

/-- Split a character list at every `'|'` (used to name the fields of a
    canonical record in the claims). -/
def splitPipe : List Char → List (List Char)
  | [] => [[]]
  | c :: rest =>
    match splitPipe rest with
    | [] => [[]]
    | g :: gs => if c = '|' then [] :: g :: gs else (c :: g) :: gs

/-- The `|`-separated fields of a record string. -/
def pipeFields (r : String) : List String :=
  (splitPipe r.toList).map String.mk

/-- The year field (third `|`-separated field) of a canonical record. -/
def yearField (r : String) : String :=
  (pipeFields r).getD 2 ""

/-- The persistent configuration record (`checker_config.json`),
    with the six documented fields. -/
structure Config where
  api_key : String
  api_base : String
  bot_token : String
  chat_id : String
  proxy : String
  proxy_enabled : Bool
deriving DecidableEq

/-- The `checkStats` run aggregate (checker.py lines 19-32). -/
structure CheckStats where
  total : Nat
  checked : Nat
  approved : Nat
  ccn : Nat
  live : Nat
  charged : Nat
  dead : Nat
  invalid : Nat
  approveddummys : List String
  ccndummys : List String
  livedummys : List String
  chargeddummys : List String
deriving DecidableEq

/-- `resetStats()`: all counters zero, all lists empty. -/
def resetStats : CheckStats :=
  { total := 0, checked := 0, approved := 0, ccn := 0, live := 0,
    charged := 0, dead := 0, invalid := 0,
    approveddummys := [], ccndummys := [], livedummys := [], chargeddummys := [] }

/-- `sendTelegramNotification(config, dummy, status, code, message)`:
    returns the number of chat-notification POSTs attempted (0 or 1).
    It is a no-op without both bot token and chat id, and fires only for
    the four interesting statuses; the POST itself is best-effort. -/
def sendTelegramNotification (config : Config) (_dummy status _code _message : String) : Nat :=
  if config.bot_token = "" ∨ config.chat_id = "" then 0
  else if status = "APPROVED" ∨ status = "CCN MATCHED" ∨ status = "LIVE" ∨ status = "CHARGED"
  then 1 else 0

/-- The status letter of the `statusMap` in `logResult`
    (`.get(status, ('D', RED))` default included). -/
def statusChar (status : String) : String :=
  if status = "APPROVED" then "S"
  else if status = "CCN MATCHED" then "L"
  else if status = "LIVE" then "L"
  else if status = "CHARGED" then "S"
  else if status = "DEAD" then "D"
  else if status = "ERROR" then "I"
  else "D"

/-- The plain-text `logLineClean` built by `logResult`. -/
def logLineClean (timestamp sc dummy code message ip gateway siteLabel : String) : String :=
  timestamp ++ " : [" ++ sc ++ "] " ++ dummy ++ " | " ++ pyUpper code ++ " - " ++
    pyUpper message ++ " | " ++ ip ++ " | " ++ pyUpper gateway ++ " | " ++ siteLabel

/-- `logResult(dummy, status, code, message, ip, gateway, config, site, siteLabel)`
    (checker.py lines 220-269) as a pure state transition on the run
    aggregate.  `timestamp` stands for the wall-clock `getTimestamp()`.
    The second component is the number of notification POSTs attempted. -/
def logResult (stats : CheckStats) (dummy status code message ip gateway : String)
    (config : Config) (_site siteLabel timestamp : String) : CheckStats × Nat :=
  let line := logLineClean timestamp (statusChar status) dummy code message ip gateway siteLabel
  let stats := { stats with checked := stats.checked + 1 }
  if status = "APPROVED" then
    ({ stats with approved := stats.approved + 1,
                  approveddummys := stats.approveddummys ++ [line] },
     sendTelegramNotification config dummy status code message)
  else if status = "CCN MATCHED" then
    ({ stats with ccn := stats.ccn + 1,
                  ccndummys := stats.ccndummys ++ [line] },
     sendTelegramNotification config dummy status code message)
  else if status = "LIVE" then
    ({ stats with live := stats.live + 1,
                  livedummys := stats.livedummys ++ [line] },
     sendTelegramNotification config dummy status code message)
  else if status = "CHARGED" then
    ({ stats with charged := stats.charged + 1,
                  chargeddummys := stats.chargeddummys ++ [line] },
     sendTelegramNotification config dummy status code message)
  else if status = "DEAD" then
    ({ stats with dead := stats.dead + 1 }, 0)
  else if status = "ERROR" then
    ({ stats with invalid := stats.invalid + 1 }, 0)
  else
    (stats, 0)

/-- The parsed JSON body of a gateway response; each field is `none`
    when the key is absent (`data.get` defaults apply in `checkdummy`). -/
structure Payload where
  status : Option String
  code : Option String
  message : Option String
  proxy_ip : Option String
deriving DecidableEq

/-- What the network does for one `requests.get` call: a response with
    an HTTP status code and parsed body, a timeout, a connection-level
    failure, or any other exception (message `emsg`). -/
inductive HttpResult where
  | ok (statusCode : Nat) (body : Payload)
  | timeout
  | connError
  | otherError (emsg : String)
deriving DecidableEq

/-- The GET request `checkdummy` issues (URL and query parameters). -/
structure GwRequest where
  url : String
  site : String
  dummys : String
  key : String
  proxy : Option String
deriving DecidableEq

/-- Everything observable about one `checkdummy` call: the updated run
    aggregate, the (possibly updated) in-memory config, the configs
    passed to `saveConfig`, the remote request (if any was issued), the
    arguments of the `logResult` call (if one was made:
    dummy, status, code, message, ip), and notification POST count. -/
structure CheckEffect where
  stats : CheckStats
  config : Config
  savedConfigs : List Config
  request : Option GwRequest
  logged : Option (String × String × String × String × String)
  notifies : Nat
deriving DecidableEq

/-- `checkdummy(dummy, site, gateway, config, siteLabel)` (checker.py
    lines 271-313).  Extra model parameters: the current run aggregate,
    whether `checker_config.json` exists (`os.path.exists` in the 401
    branch), the wall-clock timestamp, and the network's behaviour for
    the call that would be issued. -/
def checkdummy (dummy site gateway : String) (config : Config) (siteLabel : String)
    (stats : CheckStats) (configFileExists : Bool) (timestamp : String)
    (net : HttpResult) : CheckEffect :=
  let dummy := pyStrip dummy
  if dummy = "" ∨ '|' ∉ dummy.toList then
    let r := logResult stats dummy "ERROR" "INVALID" "INVALID dummy FORMAT" "N/A"
      gateway config site siteLabel timestamp
    { stats := r.1, config := config, savedConfigs := [], request := none,
      logged := some (dummy, "ERROR", "INVALID", "INVALID dummy FORMAT", "N/A"),
      notifies := r.2 }
  else
    let req : GwRequest :=
      { url := config.api_base ++ "/" ++ gateway, site := site, dummys := dummy,
        key := config.api_key,
        proxy := if config.proxy_enabled ∧ config.proxy ≠ "" then some config.proxy else none }
    match net with
    | .ok sc body =>
      if sc = 401 then
        if configFileExists then
          let config2 := { config with api_key := "" }
          { stats := stats, config := config2, savedConfigs := [config2],
            request := some req, logged := none, notifies := 0 }
        else
          { stats := stats, config := config, savedConfigs := [],
            request := some req, logged := none, notifies := 0 }
      else
        let status := body.status.getD "ERROR"
        let code := body.code.getD "unknown"
        let message := body.message.getD "No message"
        let ip := body.proxy_ip.getD "N/A"
        let r := logResult stats dummy status code message ip
          gateway config site siteLabel timestamp
        { stats := r.1, config := config, savedConfigs := [], request := some req,
          logged := some (dummy, status, code, message, ip), notifies := r.2 }
    | .timeout =>
      let r := logResult stats dummy "ERROR" "TIMEOUT" "REQUEST TIMEOUT" "N/A"
        gateway config site siteLabel timestamp
      { stats := r.1, config := config, savedConfigs := [], request := some req,
        logged := some (dummy, "ERROR", "TIMEOUT", "REQUEST TIMEOUT", "N/A"),
        notifies := r.2 }
    | .connError =>
      let r := logResult stats dummy "ERROR" "CONNECTION" "CONNECTION ERROR" "N/A"
        gateway config site siteLabel timestamp
      { stats := r.1, config := config, savedConfigs := [], request := some req,
        logged := some (dummy, "ERROR", "CONNECTION", "CONNECTION ERROR", "N/A"),
        notifies := r.2 }
    | .otherError e =>
      let r := logResult stats dummy "ERROR" "EXCEPTION" (pyUpper e) "N/A"
        gateway config site siteLabel timestamp
      { stats := r.1, config := config, savedConfigs := [], request := some req,
        logged := some (dummy, "ERROR", "EXCEPTION", pyUpper e, "N/A"),
        notifies := r.2 }

/-- What one loaded record contributed to a run: either its check
    completed and reached `logResult` with the given arguments, or it
    was short-circuited by a 401 response (no outcome recorded). -/
inductive RunEvent where
  | completed (dummy status code message ip : String)
  | shortCircuit401
deriving DecidableEq

/-- The aggregate update performed for one run event. -/
def runStep (config : Config) (gateway site siteLabel timestamp : String)
    (stats : CheckStats) : RunEvent → CheckStats
  | .completed dummy status code message ip =>
    (logResult stats dummy status code message ip gateway config site siteLabel timestamp).1
  | .shortCircuit401 => stats

/-- A whole run, as `startChecker` drives it: reset the aggregate, set
    `total` to the number of loaded records, then fold every record's
    event through `logResult`. -/
def runChecker (config : Config) (gateway site siteLabel timestamp : String)
    (events : List RunEvent) : CheckStats :=
  events.foldl (runStep config gateway site siteLabel timestamp)
    { resetStats with total := events.length }

/-- Is a status one of the six recognized by `logResult`'s counter
    dispatch? -/
def recognizedStatus (status : String) : Bool :=
  status = "APPROVED" ∨ status = "CCN MATCHED" ∨ status = "LIVE" ∨
  status = "CHARGED" ∨ status = "DEAD" ∨ status = "ERROR"

/-- Number of completed (non-401) events in a run. -/
def completedCount (events : List RunEvent) : Nat :=
  events.countP (fun e => match e with
    | .completed _ _ _ _ _ => true
    | .shortCircuit401 => false)

/-- Number of completed events whose status is one of the six
    recognized statuses. -/
def recognizedCompletedCount (events : List RunEvent) : Nat :=
  events.countP (fun e => match e with
    | .completed _ status _ _ _ => recognizedStatus status
    | .shortCircuit401 => false)

/-- Number of completed events whose status is not recognized. -/
def unrecognizedCount (events : List RunEvent) : Nat :=
  events.countP (fun e => match e with
    | .completed _ status _ _ _ => !recognizedStatus status
    | .shortCircuit401 => false)

/-- Sum of the six outcome counters of the aggregate. -/
def sumCounters (s : CheckStats) : Nat :=
  s.approved + s.ccn + s.live + s.charged + s.dead + s.invalid

/-- The result filename built by `saveToFile`
    (`os.path.join(RESULTS_DIR, ...)` of the f-string). -/
def saveToFileName (status timestamp : String) : String :=
  "results/" ++ (pyReplaceChar (pyLower status) ' ' '_' ++ "_" ++ timestamp ++ ".txt")

/-- `saveToFile(dummys, status, timestamp)` (checker.py lines 206-218):
    the list of (filename, lines) writes it performs — empty for an
    empty batch, otherwise exactly one file. -/
def saveToFile (dummys : List String) (status timestamp : String) :
    List (String × List String) :=
  if dummys = [] then [] else [(saveToFileName status timestamp, dummys)]

/-- The file writes performed by `showSummary()` (checker.py lines
    692-717): one `saveToFile` call per non-empty interesting category,
    in source order, all with the single run timestamp. -/
def showSummary (stats : CheckStats) (timestamp : String) :
    List (String × List String) :=
  (if stats.approveddummys = [] then [] else saveToFile stats.approveddummys "approved" timestamp) ++
  (if stats.chargeddummys = [] then [] else saveToFile stats.chargeddummys "charged" timestamp) ++
  (if stats.ccndummys = [] then [] else saveToFile stats.ccndummys "ccn" timestamp) ++
  (if stats.livedummys = [] then [] else saveToFile stats.livedummys "live" timestamp)

/-- The scheme-removal step of `extractDomain`: one substitution of the
    anchored, case-insensitive `^https?://` (greedy, so `https://` is
    preferred over `http://`). -/
def schemeDropL (l : List Char) : List Char :=
  if (l.take 8).map lcChar = "https://".toList then l.drop 8
  else if (l.take 7).map lcChar = "http://".toList then l.drop 7
  else l

/-- `extractDomain(url)` (checker.py lines 101-107) on character lists:
    strip, remove one leading scheme, truncate at the first `/`, then at
    the first `?`. -/
def extractDomainL (l : List Char) : List Char :=
  let t := pyStripL l
  let t := schemeDropL t
  let t := t.takeWhile (fun c => c ≠ '/')
  t.takeWhile (fun c => c ≠ '?')

/-- `extractDomain(url)`. -/
def extractDomain (url : String) : String :=
  String.mk (extractDomainL url.toList)

/-- A JSON value, as parsed by `json.load` / written by `json.dump`
    (arrays are omitted: no configuration flow produces one). -/
inductive JVal where
  | jstr (s : String)
  | jbool (b : Bool)
  | jnum (n : Int)
  | jobj (fields : List (String × JVal))
  | jnull

/-- Lookup of a key in a JSON object (`dict` access); `none` when the
    value is not an object or lacks the key. -/
def jget : JVal → String → Option JVal
  | .jobj fields, k => jfind fields k
  | _, _ => none
where
  jfind : List (String × JVal) → String → Option JVal
    | [], _ => none
    | (k', v) :: rest, k => if k' = k then some v else jfind rest k

/-- The state of `checker_config.json` on disk. -/
inductive ConfigFile where
  | absent
  | unparseable (raw : String)
  | parsed (v : JVal)

/-- The default configuration dictionary returned by `loadConfig` when
    the file is absent or unreadable (checker.py lines 75-82). -/
def defaultConfigJson : JVal :=
  .jobj [("api_key", .jstr ""),
         ("api_base", .jstr "https://api.isnotsin.com"),
         ("bot_token", .jstr ""),
         ("chat_id", .jstr ""),
         ("proxy", .jstr ""),
         ("proxy_enabled", .jbool false)]

/-- `loadConfig()` (checker.py lines 68-82): the parsed file content
    when the file exists and parses, else the default record (parse
    failures are swallowed). -/
def loadConfig : ConfigFile → JVal
  | .absent => defaultConfigJson
  | .unparseable _ => defaultConfigJson
  | .parsed v => v

/-- The JSON object `json.dump` writes for a six-field configuration
    record, keys in dictionary insertion order. -/
def configToJson (c : Config) : JVal :=
  .jobj [("api_key", .jstr c.api_key),
         ("api_base", .jstr c.api_base),
         ("bot_token", .jstr c.bot_token),
         ("chat_id", .jstr c.chat_id),
         ("proxy", .jstr c.proxy),
         ("proxy_enabled", .jbool c.proxy_enabled)]

/-- `saveConfig(config)` (checker.py lines 84-86): overwrite the file
    with the record's JSON serialization. -/
def saveConfig (c : Config) : ConfigFile :=
  .parsed (configToJson c)

/-- A sample configuration used for concrete runs in the development. -/
def sampleConfig : Config :=
  { api_key := "KEY", api_base := "https://api.isnotsin.com",
    bot_token := "", chat_id := "", proxy := "", proxy_enabled := false }

/-! ## Helper lemmas -/

theorem takeDigits_spec :
    ∀ (n : Nat) (l g r : List Char), takeDigits n l = some (g, r) →
      g.length = n ∧ ∀ c ∈ g, c.isDigit := by
  intro n
  induction n with
  | zero =>
    intro l g r h
    simp [takeDigits] at h
    simp [h.1]
  | succ m ih =>
    intro l g r h
    cases l with
    | nil => simp [takeDigits] at h
    | cons c rest =>
      simp only [takeDigits] at h
      by_cases hd : c.isDigit
      · rw [if_pos hd] at h
        cases htd : takeDigits m rest with
        | none => rw [htd] at h; exact absurd h (by simp)
        | some p =>
          obtain ⟨g', r'⟩ := p
          rw [htd] at h
          simp only [Option.some.injEq, Prod.mk.injEq] at h
          obtain ⟨hg, -⟩ := h
          obtain ⟨hlen, hdig⟩ := ih rest g' r' htd
          subst hg
          constructor
          · simp [hlen]
          · intro x hx
            rcases List.mem_cons.mp hx with h1 | h2
            · exact h1 ▸ hd
            · exact hdig x h2
      · rw [if_neg hd] at h; exact absurd h (by simp)

theorem firstSome_eq_some {α β : Type} (f : α → Option β) :
    ∀ (xs : List α) (b : β), firstSome f xs = some b → ∃ a ∈ xs, f a = some b := by
  intro xs
  induction xs with
  | nil => intro b h; simp [firstSome] at h
  | cons a as ih =>
    intro b h
    simp only [firstSome] at h
    cases hfa : f a with
    | some b' =>
      rw [hfa] at h
      exact ⟨a, List.mem_cons_self a as, hfa.trans h⟩
    | none =>
      rw [hfa] at h
      obtain ⟨a', ha', hfa'⟩ := ih b h
      exact ⟨a', List.mem_cons_of_mem a ha', hfa'⟩

theorem matchAt_groups (l g1 g2 g3 g4 : List Char)
    (h : matchAt l = some (g1, g2, g3, g4)) :
    (13 ≤ g1.length ∧ g1.length ≤ 19 ∧ ∀ c ∈ g1, c.isDigit) ∧
    (1 ≤ g2.length ∧ g2.length ≤ 2 ∧ ∀ c ∈ g2, c.isDigit) ∧
    (2 ≤ g3.length ∧ g3.length ≤ 4 ∧ ∀ c ∈ g3, c.isDigit) ∧
    (3 ≤ g4.length ∧ g4.length ≤ 4 ∧ ∀ c ∈ g4, c.isDigit) := by
  unfold matchAt at h
  obtain ⟨n1, hn1, h1⟩ := firstSome_eq_some _ _ _ h
  cases ht1 : takeDigits n1 l with
  | none => rw [ht1] at h1; exact absurd h1 (by simp)
  | some p1 =>
    obtain ⟨a1, r1⟩ := p1
    rw [ht1] at h1
    simp only at h1
    obtain ⟨n2, hn2, h2⟩ := firstSome_eq_some _ _ _ h1
    cases ht2 : takeDigits n2 (r1.dropWhile (fun c => !c.isDigit)) with
    | none => rw [ht2] at h2; exact absurd h2 (by simp)
    | some p2 =>
      obtain ⟨a2, r3⟩ := p2
      rw [ht2] at h2
      simp only at h2
      obtain ⟨n3, hn3, h3⟩ := firstSome_eq_some _ _ _ h2
      cases ht3 : takeDigits n3 (r3.dropWhile (fun c => !c.isDigit)) with
      | none => rw [ht3] at h3; exact absurd h3 (by simp)
      | some p3 =>
        obtain ⟨a3, r5⟩ := p3
        rw [ht3] at h3
        simp only at h3
        obtain ⟨n4, hn4, h4⟩ := firstSome_eq_some _ _ _ h3
        cases ht4 : takeDigits n4 (r5.dropWhile (fun c => !c.isDigit)) with
        | none => rw [ht4] at h4; exact absurd h4 (by simp)
        | some p4 =>
          obtain ⟨a4, r7⟩ := p4
          rw [ht4] at h4
          simp only [Option.some.injEq, Prod.mk.injEq] at h4
          obtain ⟨e1, e2, e3, e4⟩ := h4
          subst e1; subst e2; subst e3; subst e4
          obtain ⟨l1, d1⟩ := takeDigits_spec n1 _ _ _ ht1
          obtain ⟨l2, d2⟩ := takeDigits_spec n2 _ _ _ ht2
          obtain ⟨l3, d3⟩ := takeDigits_spec n3 _ _ _ ht3
          obtain ⟨l4, d4⟩ := takeDigits_spec n4 _ _ _ ht4
          simp only [List.mem_cons, List.not_mem_nil, or_false] at hn1 hn2 hn3 hn4
          have hb1 : 13 ≤ n1 ∧ n1 ≤ 19 := by
            rcases hn1 with rfl | rfl | rfl | rfl | rfl | rfl | rfl <;> simp
          have hb2 : 1 ≤ n2 ∧ n2 ≤ 2 := by
            rcases hn2 with rfl | rfl <;> simp
          have hb3 : 2 ≤ n3 ∧ n3 ≤ 4 := by
            rcases hn3 with rfl | rfl | rfl <;> simp
          have hb4 : 3 ≤ n4 ∧ n4 ≤ 4 := by
            rcases hn4 with rfl | rfl <;> simp
          refine ⟨⟨?_, ?_, d1⟩, ⟨?_, ?_, d2⟩, ⟨?_, ?_, d3⟩, ⟨?_, ?_, d4⟩⟩ <;>
            omega

theorem reSearch_eq_some (l : List Char) (g : List Char × List Char × List Char × List Char)
    (h : reSearch l = some g) : ∃ l', matchAt l' = some g := by
  induction l with
  | nil => simp [reSearch] at h
  | cons c rest ih =>
    simp only [reSearch] at h
    cases hm : matchAt (c :: rest) with
    | some g' => rw [hm] at h; simp only [Option.some.injEq] at h; exact ⟨c :: rest, h ▸ hm⟩
    | none => rw [hm] at h; exact ih h

theorem splitPipe_ne_nil : ∀ l : List Char, splitPipe l ≠ [] := by
  intro l
  cases l with
  | nil => simp [splitPipe]
  | cons c rest =>
    simp only [splitPipe]
    cases splitPipe rest with
    | nil => simp
    | cons g gs =>
      by_cases h : c = '|' <;> simp [h]

theorem splitPipe_nopipe (a : List Char) (ha : '|' ∉ a) : splitPipe a = [a] := by
  induction a with
  | nil => simp [splitPipe]
  | cons c rest ih =>
    have hc : c ≠ '|' := fun h => ha (h ▸ List.mem_cons_self c rest)
    have hrest : '|' ∉ rest := fun h => ha (List.mem_cons_of_mem c h)
    simp only [splitPipe, ih hrest]
    simp [hc]

theorem splitPipe_append (a rest : List Char) (ha : '|' ∉ a) :
    splitPipe (a ++ '|' :: rest) = a :: splitPipe rest := by
  induction a with
  | nil =>
    simp only [List.nil_append, splitPipe]
    cases hs : splitPipe rest with
    | nil => exact absurd hs (splitPipe_ne_nil rest)
    | cons g gs => simp
  | cons c a' ih =>
    have hc : c ≠ '|' := fun h => ha (h ▸ List.mem_cons_self c a')
    have ha' : '|' ∉ a' := fun h => ha (List.mem_cons_of_mem c h)
    simp only [List.cons_append, splitPipe, List.append_eq]
    rw [ih ha']
    simp [hc]

theorem digit_ne_pipe (c : Char) (h : c.isDigit) : c ≠ '|' := by
  intro he
  subst he
  simp [Char.isDigit] at h

theorem zfill2_digits (l : List Char) (h : ∀ c ∈ l, c.isDigit) :
    ∀ c ∈ zfill2 l, c.isDigit := by
  intro c hc
  rcases List.mem_append.mp hc with h1 | h2
  · have := List.eq_of_mem_replicate h1
    subst this
    decide
  · exact h c h2

theorem nopipe_of_digits (l : List Char) (h : ∀ c ∈ l, c.isDigit) : '|' ∉ l :=
  fun hm => by simpa using h '|' hm

theorem extractdummy_fields (line rec : String) (h : extractdummy line = some rec) :
    ∃ g1 g2 g3 g4, reSearch line.toList = some (g1, g2, g3, g4) ∧
      pipeFields rec = [String.mk g1, String.mk (zfill2 g2),
        String.mk (if g3.length = 4 then g3.drop 2 else g3), String.mk g4] ∧
      2 ≤ g3.length ∧ g3.length ≤ 4 := by
  unfold extractdummy at h
  cases hr : reSearch line.toList with
  | none => rw [hr] at h; exact absurd h (by simp)
  | some g =>
    obtain ⟨g1, g2, g3, g4⟩ := g
    rw [hr] at h
    simp only at h
    by_cases hcond : 13 ≤ g1.length ∧ g1.length ≤ 19 ∧
        1 ≤ listToNat (zfill2 g2) ∧ listToNat (zfill2 g2) ≤ 12
    · rw [if_pos hcond] at h
      simp only [Option.some.injEq] at h
      obtain ⟨l', hm⟩ := reSearch_eq_some _ _ hr
      obtain ⟨⟨-, -, d1⟩, ⟨-, -, d2⟩, ⟨hg3lo, hg3hi, d3⟩, ⟨-, -, d4⟩⟩ :=
        matchAt_groups _ _ _ _ _ hm
      have hyy : ∀ c ∈ (if g3.length = 4 then g3.drop 2 else g3), c.isDigit := by
        intro c hc
        by_cases h4 : g3.length = 4
        · rw [if_pos h4] at hc
          exact d3 c (List.mem_of_mem_drop hc)
        · rw [if_neg h4] at hc
          exact d3 c hc
      refine ⟨g1, g2, g3, g4, rfl, ?_, hg3lo, hg3hi⟩
      have hlist : rec.toList =
          g1 ++ '|' :: (zfill2 g2 ++ '|' ::
            ((if g3.length = 4 then g3.drop 2 else g3) ++ '|' :: g4)) := by
        rw [← h]
        rfl
      unfold pipeFields
      rw [hlist,
        splitPipe_append _ _ (nopipe_of_digits _ d1),
        splitPipe_append _ _ (nopipe_of_digits _ (zfill2_digits _ d2)),
        splitPipe_append _ _ (nopipe_of_digits _ hyy),
        splitPipe_nopipe _ (nopipe_of_digits _ d4)]
      simp
    · rw [if_neg hcond] at h
      exact absurd h (by simp)

theorem logResult_counters (stats : CheckStats)
    (dummy status code message ip gateway : String) (config : Config)
    (site siteLabel timestamp : String) :
    ((logResult stats dummy status code message ip gateway config site siteLabel timestamp).1.total
        = stats.total) ∧
    ((logResult stats dummy status code message ip gateway config site siteLabel timestamp).1.checked
        = stats.checked + 1) ∧
    (sumCounters (logResult stats dummy status code message ip gateway config site siteLabel timestamp).1
        = sumCounters stats + (if recognizedStatus status then 1 else 0)) := by
  simp only [logResult, sumCounters, recognizedStatus]
  split_ifs with h1 h2 h3 h4 h5 h6 <;> simp_all <;> omega

theorem runFold (config : Config) (gateway site siteLabel timestamp : String) :
    ∀ (events : List RunEvent) (s0 : CheckStats),
      ((events.foldl (runStep config gateway site siteLabel timestamp) s0).total = s0.total) ∧
      ((events.foldl (runStep config gateway site siteLabel timestamp) s0).checked
          = s0.checked + completedCount events) ∧
      (sumCounters (events.foldl (runStep config gateway site siteLabel timestamp) s0)
          = sumCounters s0 + recognizedCompletedCount events) := by
  intro events
  induction events with
  | nil =>
    intro s0
    simp [completedCount, recognizedCompletedCount]
  | cons e es ih =>
    intro s0
    simp only [List.foldl_cons]
    obtain ⟨ht, hc, hs⟩ := ih (runStep config gateway site siteLabel timestamp s0 e)
    cases e with
    | completed dummy status code message ip =>
      obtain ⟨ht', hc', hs'⟩ := logResult_counters s0 dummy status code message ip
        gateway config site siteLabel timestamp
      simp only [runStep] at ht hc hs ⊢
      have hcc : completedCount (RunEvent.completed dummy status code message ip :: es)
          = completedCount es + 1 := by
        simp [completedCount, List.countP_cons]
      have hrc : recognizedCompletedCount (RunEvent.completed dummy status code message ip :: es)
          = recognizedCompletedCount es + (if recognizedStatus status then 1 else 0) := by
        cases hrec : recognizedStatus status <;>
          simp [recognizedCompletedCount, List.countP_cons, hrec]
      refine ⟨ht.trans ht', ?_, ?_⟩
      · rw [hc, hc', hcc]
        omega
      · rw [hs, hs', hrc]
        cases hrec : recognizedStatus status
        · simp [hrec]
        · simp [hrec]
          omega
    | shortCircuit401 =>
      simp only [runStep] at ht hc hs ⊢
      have hcc : completedCount (RunEvent.shortCircuit401 :: es) = completedCount es := by
        simp [completedCount, List.countP_cons]
      have hrc : recognizedCompletedCount (RunEvent.shortCircuit401 :: es)
          = recognizedCompletedCount es := by
        simp [recognizedCompletedCount, List.countP_cons]
      exact ⟨ht, by rw [hc, hcc], by rw [hs, hrc]⟩

theorem completedCount_partition (events : List RunEvent) :
    completedCount events = recognizedCompletedCount events + unrecognizedCount events := by
  induction events with
  | nil => simp [completedCount, recognizedCompletedCount, unrecognizedCount]
  | cons e es ih =>
    simp only [completedCount, recognizedCompletedCount, unrecognizedCount,
      List.countP_cons] at *
    cases e with
    | completed dummy status code message ip =>
      cases hrec : recognizedStatus status <;> simp [hrec] <;> omega
    | shortCircuit401 => simpa using ih

/-! ## Claim theorems -/

/-- C1 counterexample: a run with one completed check whose remote
    status string `"3DS"` is not one of the six recognized statuses has
    `checked = 1` but all six outcome counters zero, so the claimed
    equality `checked = approved + ccn + live + charged + dead + invalid`
    fails for that run. -/
theorem c1_counterexample :
    ¬ ((runChecker sampleConfig "stripe" "example.com" "SITE 1" "12:00:00"
        [RunEvent.completed "4111111111111111|12|25|123" "3DS" "05" "unrecognized" "N/A"]).checked =
      (runChecker sampleConfig "stripe" "example.com" "SITE 1" "12:00:00"
        [RunEvent.completed "4111111111111111|12|25|123" "3DS" "05" "unrecognized" "N/A"]).approved +
      (runChecker sampleConfig "stripe" "example.com" "SITE 1" "12:00:00"
        [RunEvent.completed "4111111111111111|12|25|123" "3DS" "05" "unrecognized" "N/A"]).ccn +
      (runChecker sampleConfig "stripe" "example.com" "SITE 1" "12:00:00"
        [RunEvent.completed "4111111111111111|12|25|123" "3DS" "05" "unrecognized" "N/A"]).live +
      (runChecker sampleConfig "stripe" "example.com" "SITE 1" "12:00:00"
        [RunEvent.completed "4111111111111111|12|25|123" "3DS" "05" "unrecognized" "N/A"]).charged +
      (runChecker sampleConfig "stripe" "example.com" "SITE 1" "12:00:00"
        [RunEvent.completed "4111111111111111|12|25|123" "3DS" "05" "unrecognized" "N/A"]).dead +
      (runChecker sampleConfig "stripe" "example.com" "SITE 1" "12:00:00"
        [RunEvent.completed "4111111111111111|12|25|123" "3DS" "05" "unrecognized" "N/A"]).invalid) := by
  decide

/-- C1 (amended): at the completion of every run, `checked` equals the
    sum of the `approved`, `ccn`, `live`, `charged`, `dead` and
    `invalid` counters plus the number of completed checks whose remote
    status string is not one of the six recognized statuses
    (401-short-circuited calls increment nothing), and `checked` never
    exceeds `total`. -/
theorem c1_run_total_invariant (config : Config)
    (gateway site siteLabel timestamp : String) (events : List RunEvent) :
    (runChecker config gateway site siteLabel timestamp events).checked =
      (runChecker config gateway site siteLabel timestamp events).approved +
      (runChecker config gateway site siteLabel timestamp events).ccn +
      (runChecker config gateway site siteLabel timestamp events).live +
      (runChecker config gateway site siteLabel timestamp events).charged +
      (runChecker config gateway site siteLabel timestamp events).dead +
      (runChecker config gateway site siteLabel timestamp events).invalid +
      unrecognizedCount events ∧
    (runChecker config gateway site siteLabel timestamp events).checked ≤
      (runChecker config gateway site siteLabel timestamp events).total := by
  obtain ⟨ht, hc, hs⟩ := runFold config gateway site siteLabel timestamp events
    { resetStats with total := events.length }
  have hpart := completedCount_partition events
  have hclen : completedCount events ≤ events.length := List.countP_le_length _
  unfold runChecker
  have hsum : sumCounters (List.foldl (runStep config gateway site siteLabel timestamp)
      { resetStats with total := events.length } events) =
      (List.foldl (runStep config gateway site siteLabel timestamp)
        { resetStats with total := events.length } events).approved +
      (List.foldl (runStep config gateway site siteLabel timestamp)
        { resetStats with total := events.length } events).ccn +
      (List.foldl (runStep config gateway site siteLabel timestamp)
        { resetStats with total := events.length } events).live +
      (List.foldl (runStep config gateway site siteLabel timestamp)
        { resetStats with total := events.length } events).charged +
      (List.foldl (runStep config gateway site siteLabel timestamp)
        { resetStats with total := events.length } events).dead +
      (List.foldl (runStep config gateway site siteLabel timestamp)
        { resetStats with total := events.length } events).invalid := rfl
  have h0 : sumCounters { resetStats with total := events.length } = 0 := rfl
  have h1 : ({ resetStats with total := events.length } : CheckStats).checked = 0 := rfl
  have h2 : ({ resetStats with total := events.length } : CheckStats).total = events.length := rfl
  exact ⟨by omega, by omega⟩

/-- C2 counterexample: for the input line
    `"4111111111111111 12 205 123"` the extraction pattern matches with
    a 3-digit year group, which is kept whole: the retained record's
    year field is `"205"`, not a two-digit string. -/
theorem c2_counterexample :
    extractdummy "4111111111111111 12 205 123" = some "4111111111111111|12|205|123" ∧
    (yearField "4111111111111111|12|205|123").length ≠ 2 := by
  decide

/-- C2 (amended): every credential record retained by extraction has a
    year field of two or three digits: when the matched year group has
    4 digits only its last two are kept, when it has 2 or 3 digits it
    is kept whole (so a 3-digit year group yields a 3-digit year
    field). -/
theorem c2_two_digit_year (line rec : String) (h : extractdummy line = some rec) :
    ((yearField rec).length = 2 ∨ (yearField rec).length = 3) ∧
    (∀ g1 g2 g3 g4, reSearch line.toList = some (g1, g2, g3, g4) →
      g3.length = 4 → yearField rec = String.mk (g3.drop 2)) := by
  obtain ⟨g1, g2, g3, g4, hr, hf, hlo, hhi⟩ := extractdummy_fields line rec h
  have hy : yearField rec = String.mk (if g3.length = 4 then g3.drop 2 else g3) := by
    simp [yearField, hf]
  constructor
  · rw [hy]
    by_cases h4 : g3.length = 4
    · left
      rw [if_pos h4]
      show (g3.drop 2).length = 2
      simp [h4]
    · rw [if_neg h4]
      show g3.length = 2 ∨ g3.length = 3
      omega
  · intro g1' g2' g3' g4' hr' h4
    rw [hr] at hr'
    have h3 : g3' = g3 := by
      injection hr' with hp
      injection hp with e1 hp
      injection hp with e2 hp
      injection hp with e3 e4
      exact e3.symm
    subst h3
    rw [hy, if_pos h4]

/-- C2 witness: the amended theorem applied at a concrete input. -/
theorem c2_two_digit_year_witness :
    (yearField "4111111111111111|12|25|123").length = 2 ∨
    (yearField "4111111111111111|12|25|123").length = 3 :=
  (c2_two_digit_year "4111111111111111 12/25 123" "4111111111111111|12|25|123" (by decide)).1

/-- C4: applying the extraction function to
    `"4111111111111111 12/25 123"` yields exactly
    `"4111111111111111|12|25|123"`, and applying it to `"not a card"`
    yields nothing. -/
theorem c4_extraction_concrete :
    extractdummy "4111111111111111 12/25 123" = some "4111111111111111|12|25|123" ∧
    extractdummy "not a card" = none := by
  decide

/-- C3 counterexample: when no settings file exists, a 401 response
    leaves the stored API key untouched (the code clears it only inside
    the file-exists branch), contradicting the claim that the key is
    cleared. -/
theorem c3_counterexample :
    (checkdummy "4111111111111111|12|25|123" "example.com" "stripe" sampleConfig "SITE 1"
      resetStats false "12:00:00"
      (HttpResult.ok 401 { status := none, code := none, message := none, proxy_ip := none
        })).config.api_key ≠ "" := by
  decide

/-- C3 (amended): for a valid-format record, a 401 response records no
    outcome and increments nothing; the API key is cleared and the
    cleared configuration persisted exactly when a settings file already
    exists — when no file exists neither the clear nor the persist
    happens. -/
theorem c3_unauthorized_handling (dummy site gateway : String) (config : Config)
    (siteLabel : String) (stats : CheckStats) (fileExists : Bool) (timestamp : String)
    (body : Payload)
    (h1 : pyStrip dummy ≠ "") (h2 : '|' ∈ (pyStrip dummy).toList) :
    (checkdummy dummy site gateway config siteLabel stats fileExists timestamp
        (HttpResult.ok 401 body)).stats = stats ∧
    (checkdummy dummy site gateway config siteLabel stats fileExists timestamp
        (HttpResult.ok 401 body)).logged = none ∧
    (checkdummy dummy site gateway config siteLabel stats fileExists timestamp
        (HttpResult.ok 401 body)).notifies = 0 ∧
    (fileExists = true →
      (checkdummy dummy site gateway config siteLabel stats fileExists timestamp
          (HttpResult.ok 401 body)).config = { config with api_key := "" } ∧
      (checkdummy dummy site gateway config siteLabel stats fileExists timestamp
          (HttpResult.ok 401 body)).savedConfigs = [{ config with api_key := "" }]) ∧
    (fileExists = false →
      (checkdummy dummy site gateway config siteLabel stats fileExists timestamp
          (HttpResult.ok 401 body)).config = config ∧
      (checkdummy dummy site gateway config siteLabel stats fileExists timestamp
          (HttpResult.ok 401 body)).savedConfigs = []) := by
  have hcond : ¬ (pyStrip dummy = "" ∨ '|' ∉ (pyStrip dummy).data) := by
    push_neg
    exact ⟨h1, h2⟩
  cases fileExists <;>
    simp [checkdummy, hcond]

/-- C3 witness: the amended theorem applied with an existing settings
    file and a concrete record. -/
theorem c3_unauthorized_handling_witness :
    (checkdummy "4111111111111111|12|25|123" "example.com" "stripe" sampleConfig "SITE 1"
      resetStats true "12:00:00"
      (HttpResult.ok 401 { status := none, code := none, message := none, proxy_ip := none
        })).logged = none :=
  (c3_unauthorized_handling "4111111111111111|12|25|123" "example.com" "stripe" sampleConfig
    "SITE 1" resetStats true "12:00:00"
    { status := none, code := none, message := none, proxy_ip := none }
    (by decide) (by decide)).2.1

/-- C5: for every record that (after stripping) is empty or has no `|`
    separator, the client immediately records outcome `ERROR` with code
    `INVALID`, message "INVALID dummy FORMAT" and IP `N/A`, increments
    the invalid and checked counters, and issues no remote request. -/
theorem c5_empty_record_short_circuit (dummy site gateway : String) (config : Config)
    (siteLabel : String) (stats : CheckStats) (fileExists : Bool) (timestamp : String)
    (net : HttpResult)
    (h : pyStrip dummy = "" ∨ '|' ∉ (pyStrip dummy).toList) :
    (checkdummy dummy site gateway config siteLabel stats fileExists timestamp net).request
        = none ∧
    (checkdummy dummy site gateway config siteLabel stats fileExists timestamp net).logged
        = some (pyStrip dummy, "ERROR", "INVALID", "INVALID dummy FORMAT", "N/A") ∧
    (checkdummy dummy site gateway config siteLabel stats fileExists timestamp net).stats.invalid
        = stats.invalid + 1 ∧
    (checkdummy dummy site gateway config siteLabel stats fileExists timestamp net).stats.checked
        = stats.checked + 1 := by
  unfold checkdummy
  rw [if_pos h]
  refine ⟨rfl, rfl, ?_, ?_⟩ <;>
    simp [logResult]

/-- C5 witness: the theorem applied to a separator-less record. -/
theorem c5_empty_record_short_circuit_witness :
    (checkdummy "garbage" "example.com" "stripe" sampleConfig "SITE 1"
      resetStats true "12:00:00" HttpResult.timeout).request = none :=
  (c5_empty_record_short_circuit "garbage" "example.com" "stripe" sampleConfig "SITE 1"
    resetStats true "12:00:00" HttpResult.timeout (by decide)).1

/-- C6: one completed check with remote status `"APPROVED"` increments
    `approved` and `checked` by exactly one each, appends exactly one
    formatted line to the approved result list, leaves the five other
    outcome counters unchanged, and (with a configured forwarder)
    attempts exactly one notification. -/
theorem c6_approved_classification (dummy site gateway : String) (config : Config)
    (siteLabel : String) (stats : CheckStats) (fileExists : Bool) (timestamp : String)
    (sc : Nat) (body : Payload)
    (h1 : pyStrip dummy ≠ "") (h2 : '|' ∈ (pyStrip dummy).toList)
    (hsc : sc ≠ 401) (hst : body.status = some "APPROVED")
    (hbt : config.bot_token ≠ "") (hci : config.chat_id ≠ "") :
    (checkdummy dummy site gateway config siteLabel stats fileExists timestamp
        (HttpResult.ok sc body)).stats.approved = stats.approved + 1 ∧
    (checkdummy dummy site gateway config siteLabel stats fileExists timestamp
        (HttpResult.ok sc body)).stats.checked = stats.checked + 1 ∧
    (checkdummy dummy site gateway config siteLabel stats fileExists timestamp
        (HttpResult.ok sc body)).stats.approveddummys = stats.approveddummys ++
      [logLineClean timestamp "S" (pyStrip dummy) (body.code.getD "unknown")
        (body.message.getD "No message") (body.proxy_ip.getD "N/A") gateway siteLabel] ∧
    (checkdummy dummy site gateway config siteLabel stats fileExists timestamp
        (HttpResult.ok sc body)).stats.ccn = stats.ccn ∧
    (checkdummy dummy site gateway config siteLabel stats fileExists timestamp
        (HttpResult.ok sc body)).stats.live = stats.live ∧
    (checkdummy dummy site gateway config siteLabel stats fileExists timestamp
        (HttpResult.ok sc body)).stats.charged = stats.charged ∧
    (checkdummy dummy site gateway config siteLabel stats fileExists timestamp
        (HttpResult.ok sc body)).stats.dead = stats.dead ∧
    (checkdummy dummy site gateway config siteLabel stats fileExists timestamp
        (HttpResult.ok sc body)).stats.invalid = stats.invalid ∧
    (checkdummy dummy site gateway config siteLabel stats fileExists timestamp
        (HttpResult.ok sc body)).notifies = 1 := by
  have hcond : ¬ (pyStrip dummy = "" ∨ '|' ∉ (pyStrip dummy).data) := by
    push_neg
    exact ⟨h1, h2⟩
  simp [checkdummy, hcond, hsc, hst, logResult, statusChar,
    sendTelegramNotification, hbt, hci]

/-- C6 witness: the theorem applied at a concrete approved response with
    a configured forwarder. -/
theorem c6_approved_classification_witness :
    (checkdummy "4111111111111111|12|25|123" "example.com" "stripe"
      { api_key := "KEY", api_base := "https://api.isnotsin.com",
        bot_token := "token", chat_id := "42", proxy := "", proxy_enabled := false }
      "SITE 1" resetStats true "12:00:00"
      (HttpResult.ok 200
        { status := some "APPROVED", code := some "00", message := some "ok",
          proxy_ip := some "1.2.3.4" })).notifies = 1 :=
  (c6_approved_classification "4111111111111111|12|25|123" "example.com" "stripe"
    { api_key := "KEY", api_base := "https://api.isnotsin.com",
      bot_token := "token", chat_id := "42", proxy := "", proxy_enabled := false }
    "SITE 1" resetStats true "12:00:00" 200
    { status := some "APPROVED", code := some "00", message := some "ok",
      proxy_ip := some "1.2.3.4" }
    (by decide) (by decide) (by decide) rfl (by decide) (by decide)).2.2.2.2.2.2.2.2

theorem string_append_assoc (a b c : String) : a ++ b ++ c = a ++ (b ++ c) := by
  apply String.ext
  simp [String.data_append, List.append_assoc]

theorem saveToFileName_lit (status lit pre : String)
    (h1 : pyReplaceChar (pyLower status) ' ' '_' = lit)
    (h2 : "results/".data ++ (lit.data ++ "_".data) = pre.data)
    (ts : String) :
    saveToFileName status ts = pre ++ ts ++ ".txt" := by
  unfold saveToFileName
  rw [h1]
  apply String.ext
  simp only [String.data_append]
  rw [← h2]
  simp [List.append_assoc]

/-- C7: at run end, files are written only for the `approved`,
    `charged`, `ccn` and `live` categories (never for `dead` or
    `invalid`), each exactly when its list is non-empty, named
    `{status}_{runTimestamp}.txt` under the results directory with the
    single shared run timestamp. -/
theorem c7_persistence_gating (stats : CheckStats) (timestamp : String) :
    showSummary stats timestamp =
      (if stats.approveddummys = [] then []
        else [("results/approved_" ++ timestamp ++ ".txt", stats.approveddummys)]) ++
      (if stats.chargeddummys = [] then []
        else [("results/charged_" ++ timestamp ++ ".txt", stats.chargeddummys)]) ++
      (if stats.ccndummys = [] then []
        else [("results/ccn_" ++ timestamp ++ ".txt", stats.ccndummys)]) ++
      (if stats.livedummys = [] then []
        else [("results/live_" ++ timestamp ++ ".txt", stats.livedummys)]) := by
  have ha := saveToFileName_lit "approved" "approved" "results/approved_"
    (by decide) (by decide) timestamp
  have hg := saveToFileName_lit "charged" "charged" "results/charged_"
    (by decide) (by decide) timestamp
  have hn := saveToFileName_lit "ccn" "ccn" "results/ccn_"
    (by decide) (by decide) timestamp
  have hl := saveToFileName_lit "live" "live" "results/live_"
    (by decide) (by decide) timestamp
  simp only [showSummary, saveToFile, ha, hg, hn, hl]
  split_ifs <;> simp_all

theorem lcChar_eq_slash (c : Char) (h : lcChar c = '/') : c = '/' := by
  unfold lcChar at h
  split at h <;> first
    | exact h
    | exact absurd h (by decide)

theorem extractDomainL_no_slash (l : List Char) : '/' ∉ extractDomainL l := by
  unfold extractDomainL
  intro hm
  rw [List.takeWhile_takeWhile] at hm
  have := List.mem_takeWhile_imp hm
  simp at this

theorem extractDomainL_no_q (l : List Char) : '?' ∉ extractDomainL l := by
  unfold extractDomainL
  intro hm
  have := List.mem_takeWhile_imp hm
  simp at this

theorem schemeDropL_of_no_slash (l : List Char) (h : '/' ∉ l) : schemeDropL l = l := by
  unfold schemeDropL
  have c1 : ¬ ((l.take 8).map lcChar = "https://".toList) := by
    intro he
    have hm : '/' ∈ (l.take 8).map lcChar := by
      rw [he]
      decide
    obtain ⟨c, hc, hlc⟩ := List.mem_map.mp hm
    have hcs := lcChar_eq_slash c hlc
    exact h (hcs ▸ List.take_subset _ _ hc)
  have c2 : ¬ ((l.take 7).map lcChar = "http://".toList) := by
    intro he
    have hm : '/' ∈ (l.take 7).map lcChar := by
      rw [he]
      decide
    obtain ⟨c, hc, hlc⟩ := List.mem_map.mp hm
    have hcs := lcChar_eq_slash c hlc
    exact h (hcs ▸ List.take_subset _ _ hc)
  rw [if_neg c1, if_neg c2]

theorem extractDomainL_fixed (L : List Char) (hs : pyStripL L = L)
    (h1 : '/' ∉ L) (h2 : '?' ∉ L) : extractDomainL L = L := by
  unfold extractDomainL
  dsimp only
  rw [hs, schemeDropL_of_no_slash L h1]
  have t1 : List.takeWhile (fun c => c ≠ '/') L = L := by
    refine List.takeWhile_eq_self_iff.mpr ?_
    intro x hx
    have hne : x ≠ '/' := fun he => h1 (he ▸ hx)
    simp [hne]
  have t2 : List.takeWhile (fun c => c ≠ '?') L = L := by
    refine List.takeWhile_eq_self_iff.mpr ?_
    intro x hx
    have hne : x ≠ '?' := fun he => h2 (he ▸ hx)
    simp [hne]
  rw [t1, t2]

/-- C8 counterexample: extractDomain is not idempotent: for the input
    `"http:// a"` it yields `" a"` (the scheme is removed but the inner
    whitespace survives), and a second application strips that
    whitespace, yielding the different string `"a"`. -/
theorem c8_counterexample :
    extractDomain (extractDomain "http:// a") ≠ extractDomain "http:// a" := by
  decide

/-- C8 (amended): extractDomain maps
    `"https://Example.com/checkout?x=1"` to `"Example.com"`, and it is
    idempotent on every input whose result carries no leading or
    trailing whitespace (stripping the result is the identity) — the
    counterexample shows idempotence fails when the result keeps
    whitespace behind the removed scheme. -/
theorem c8_domain_idempotence :
    extractDomain "https://Example.com/checkout?x=1" = "Example.com" ∧
    ∀ s : String, pyStrip (extractDomain s) = extractDomain s →
      extractDomain (extractDomain s) = extractDomain s := by
  constructor
  · decide
  · intro s hs
    have hs' : pyStripL (extractDomainL s.toList) = extractDomainL s.toList :=
      congrArg String.data hs
    show String.mk (extractDomainL (extractDomainL s.toList)) = String.mk (extractDomainL s.toList)
    exact congrArg String.mk
      (extractDomainL_fixed _ hs' (extractDomainL_no_slash _) (extractDomainL_no_q _))

/-- C8 witness: the amended idempotence applied at the concrete URL. -/
theorem c8_domain_idempotence_witness :
    pyStrip (extractDomain "https://Example.com/checkout?x=1") =
      extractDomain "https://Example.com/checkout?x=1" ∧
    extractDomain (extractDomain "https://Example.com/checkout?x=1") =
      extractDomain "https://Example.com/checkout?x=1" :=
  ⟨by decide, c8_domain_idempotence.2 "https://Example.com/checkout?x=1" (by decide)⟩

/-- C9: saving a configuration record with the six documented fields and
    reloading yields a record equal to the saved one in all six fields
    (indeed the loaded value is exactly the saved object). -/
theorem c9_config_round_trip (c : Config) :
    jget (loadConfig (saveConfig c)) "api_key" = some (JVal.jstr c.api_key) ∧
    jget (loadConfig (saveConfig c)) "api_base" = some (JVal.jstr c.api_base) ∧
    jget (loadConfig (saveConfig c)) "bot_token" = some (JVal.jstr c.bot_token) ∧
    jget (loadConfig (saveConfig c)) "chat_id" = some (JVal.jstr c.chat_id) ∧
    jget (loadConfig (saveConfig c)) "proxy" = some (JVal.jstr c.proxy) ∧
    jget (loadConfig (saveConfig c)) "proxy_enabled" = some (JVal.jbool c.proxy_enabled) ∧
    loadConfig (saveConfig c) = configToJson c := by
  refine ⟨?_, ?_, ?_, ?_, ?_, ?_, rfl⟩ <;>
    simp [loadConfig, saveConfig, configToJson, jget, jget.jfind]

/-- C10: configuration load falls back to the default record only when
    the settings file is absent or unparseable; a file holding valid
    JSON — even the empty object — is returned exactly as parsed, with
    no missing field filled in from the defaults. -/
theorem c10_load_fallback_only :
    loadConfig ConfigFile.absent = defaultConfigJson ∧
    (∀ raw, loadConfig (ConfigFile.unparseable raw) = defaultConfigJson) ∧
    (∀ v, loadConfig (ConfigFile.parsed v) = v) ∧
    jget (loadConfig (ConfigFile.parsed (JVal.jobj []))) "api_key" = none ∧
    jget defaultConfigJson "api_key" = some (JVal.jstr "") :=
  ⟨rfl, fun _ => rfl, fun _ => rfl, rfl, rfl⟩
